import Mathlib

/-!
Shallow embedding of the SwellDreams Kasa backend core
(`src/backend/python/network_scan.py` and
`src/backend/python/kasa_controller.py`), with theorems settling the
spec claims about the cipher codec, the device model and the discovery
layer.
-/

set_option maxHeartbeats 1000000

/-- A JSON-like value, as produced by `json.loads` and built by the
command constructors.  Objects keep their fields as an ordered list of
key/value pairs, the way a Python `dict` is built by insertion. -/
inductive Json where
  | null : Json
  | str (s : String) : Json
  | num (n : Int) : Json
  | bool (b : Bool) : Json
  | arr (xs : List Json) : Json
  | obj (fields : List (String × Json)) : Json

/-- Lookup in an insertion-ordered field list with Python `dict`
semantics: a later binding of the same key overrides an earlier one. -/
def dictGet (fields : List (String × Json)) (k : String) : Option Json :=
  fields.foldl (fun acc p => if p.1 = k then some p.2 else acc) none

namespace NetworkScan

/-- Keystream body of `encrypt` (network_scan.py lines 13-18): for each
input byte `b`, emit `a = key ^^^ b` and continue with `key = a`. -/
def encryptBody (key : Nat) : List Nat → List Nat
  | [] => []
  | b :: bs =>
    let a := key ^^^ b
    a :: encryptBody a bs

/-- The 4-byte big-endian header `pack(">I", n)` (network_scan.py
line 14); `pack` requires `n < 2^32`. -/
def lenHeader (n : Nat) : List Nat :=
  [n / 2 ^ 24 % 256, n / 2 ^ 16 % 256, n / 2 ^ 8 % 256, n % 256]

/-- `encrypt` (network_scan.py lines 11-19): length header followed by
the autokey keystream body, seed key 171. -/
def encrypt (s : List Nat) : List Nat :=
  lenHeader s.length ++ encryptBody 171 s

/-- Keystream of `decrypt` (network_scan.py lines 23-28): for each
ciphertext byte `c`, emit `key ^^^ c` and continue with `key = c`. -/
def decryptFrom (key : Nat) : List Nat → List Nat
  | [] => []
  | c :: cs => (key ^^^ c) :: decryptFrom c cs

/-- `decrypt` (network_scan.py lines 21-29), seed key 171.  The caller
strips the 4-byte header before calling it (line 51: `decrypt(data[4:])`). -/
def decrypt (data : List Nat) : List Nat :=
  decryptFrom 171 data

/-- Numeric value of a 4-byte big-endian header. -/
def headerValue : List Nat → Nat
  | [b0, b1, b2, b3] => ((b0 * 256 + b1) * 256 + b2) * 256 + b3
  | _ => 0

end NetworkScan

namespace KasaController

/-- A `KasaDevice` handle (kasa_controller.py lines 13-24):
`(ip, port, optional child_id)`. -/
structure KasaDevice where
  ip : String
  port : Int
  child_id : Option String

/-- Python truthiness of the optional `child_id` string
(`if self.child_id:`): `None` and `""` are falsy. -/
def truthy : Option String → Bool
  | none => false
  | some s => s != ""

/-- `KasaDevice._wrap_command` (kasa_controller.py lines 26-30):
`{"context": {"child_ids": [cid]}, **command}` — the context pair is
inserted first, then the original command's pairs, which override on a
key collision, exactly as Python dict unpacking does. -/
def KasaDevice.wrap_command (d : KasaDevice) (command : List (String × Json)) :
    List (String × Json) :=
  match d.child_id with
  | some cid =>
      if cid != "" then
        ("context", Json.obj [("child_ids", Json.arr [Json.str cid])]) :: command
      else command
  | none => command

/-- `KasaDevice.turn_on` command construction (kasa_controller.py
lines 32-35). -/
def KasaDevice.turn_on_command (d : KasaDevice) : List (String × Json) :=
  d.wrap_command [("system", Json.obj [("set_relay_state", Json.obj [("state", Json.num 1)])])]

/-- `KasaDevice.turn_off` command construction (kasa_controller.py
lines 37-40). -/
def KasaDevice.turn_off_command (d : KasaDevice) : List (String × Json) :=
  d.wrap_command [("system", Json.obj [("set_relay_state", Json.obj [("state", Json.num 0)])])]

/-- `KasaDevice.set_led` command construction (kasa_controller.py
lines 130-138): `{"system": {"set_led_off": {"off": 0 if state else 1}}}`;
the command is not context-wrapped. -/
def KasaDevice.set_led_command (_d : KasaDevice) (state : Bool) : Json :=
  Json.obj [("system", Json.obj [("set_led_off",
    Json.obj [("off", Json.num (if state then 0 else 1))])])]

/-- One entry of a `children` sequence in a system-info response:
`id`, `state`, `alias` may each be absent (`child.get(...)`). -/
structure ChildInfo where
  id : Option String
  state : Option Int
  alias_ : Option String

/-- The `system.get_sysinfo` subtree of a system-info response; every
field the controller reads may be absent. -/
structure SysInfo where
  children : Option (List ChildInfo)
  relay_state : Option Int
  model : Option String
  alias_ : Option String
  child_num : Option Int

/-- The `system` subtree: `get_sysinfo` may be absent (`KeyError`). -/
structure SysEnvelope where
  get_sysinfo : Option SysInfo

/-- A decoded device response as `get_state`/`get_children` receive it:
it may carry an `"error"` key (transport failure passthrough), and the
`"system"` key may be absent (`KeyError`). -/
structure InfoResponse where
  error : Option String
  system : Option SysEnvelope

/-- One element of the `outlets` list built by `get_state` for a strip
with no selected child (kasa_controller.py lines 73-81). -/
structure OutletState where
  id : Option String
  alias_ : String
  state : String
  relay_state : Int

/-- Result of `KasaDevice.get_state`: an `{"error": ...}` dict, a
single-child state dict, a whole-strip dict, or a single-outlet dict. -/
inductive StateResult where
  | err (msg : String)
  | childState (state : String) (relay_state : Int) (outlet_id : String) (outlet_alias : String)
  | stripState (outlet_count : Nat) (outlets : List OutletState) (model : String) (alias_ : String)
  | singleState (state : String) (relay_state : Int)

/-- The `outlet_states` loop of `get_state` (kasa_controller.py
lines 73-81): alias defaults to `Outlet {index+1}`, state to 0. -/
def stripOutlets (children : List ChildInfo) : List OutletState :=
  children.enum.map fun p =>
    { id := p.2.id
      alias_ := p.2.alias_.getD ("Outlet " ++ toString (p.1 + 1))
      state := if p.2.state.getD 0 = (1 : Int) then "on" else "off"
      relay_state := p.2.state.getD 0 }

/-- `KasaDevice.get_state` (kasa_controller.py lines 47-94), applied to
an already-decoded info response. -/
def KasaDevice.get_state (d : KasaDevice) (info : InfoResponse) : StateResult :=
  match info.error with
  | some e => .err e
  | none =>
    match info.system with
    | none => .err "Could not parse relay state from response"
    | some env =>
      match env.get_sysinfo with
      | none => .err "Could not parse relay state from response"
      | some sysinfo =>
        match sysinfo.children with
        | some children =>
          if truthy d.child_id then
            match children.find? (fun c => c.id == d.child_id) with
            | some child =>
                .childState (if child.state.getD 0 = 1 then "on" else "off")
                  (child.state.getD 0) (d.child_id.getD "") (child.alias_.getD "")
            | none => .err ("Child ID " ++ d.child_id.getD "" ++ " not found")
          else
            .stripState children.length (stripOutlets children)
              (sysinfo.model.getD "") (sysinfo.alias_.getD "")
        | none =>
          match sysinfo.relay_state with
          | some r => .singleState (if r = 1 then "on" else "off") r
          | none => .err "Could not parse relay state from response"

/-- One element of the `children` list built by `get_children`
(kasa_controller.py lines 106-114). -/
structure ChildEntry where
  id : Option String
  index : Nat
  alias_ : String
  state : String
  relay_state : Int

/-- Result of `KasaDevice.get_children`. -/
inductive ChildrenResult where
  | err (msg : String)
  | notStrip
  | strip (model : String) (alias_ : String) (child_num : Int) (children : List ChildEntry)

/-- Whether a `get_children` result is an `{"error": ...}` dict. -/
def ChildrenResult.isErr : ChildrenResult → Bool
  | .err _ => true
  | _ => false

/-- The children loop of `get_children` (kasa_controller.py
lines 106-114): `id` is `child.get("id")` — absent ids become null. -/
def childEntries (children : List ChildInfo) : List ChildEntry :=
  children.enum.map fun p =>
    { id := p.2.id
      index := p.1
      alias_ := p.2.alias_.getD ("Outlet " ++ toString (p.1 + 1))
      state := if p.2.state.getD 0 = (1 : Int) then "on" else "off"
      relay_state := p.2.state.getD 0 }

/-- `KasaDevice.get_children` (kasa_controller.py lines 96-123). -/
def KasaDevice.get_children (_d : KasaDevice) (info : InfoResponse) : ChildrenResult :=
  match info.error with
  | some e => .err e
  | none =>
    match info.system with
    | none => .err "Could not parse children from response"
    | some env =>
      match env.get_sysinfo with
      | none => .err "Could not parse children from response"
      | some sysinfo =>
        match sysinfo.children with
        | none => .notStrip
        | some children =>
          .strip (sysinfo.model.getD "") (sysinfo.alias_.getD "")
            (sysinfo.child_num.getD (children.length : Int)) (childEntries children)

end KasaController


namespace NetworkScan

/-- Outcome of the socket interaction of one `check_device` probe
(network_scan.py lines 33-74): the TCP connect failed or raised
(`connect_ex` nonzero), the send/recv inside the inner `try` raised,
or `recv` returned `data`. -/
inductive ProbeOutcome where
  | connectFail (code : Int)
  | ioError
  | received (data : List Nat)

/-- A record returned by `check_device` (lines 57-64): the `info` field
is present only when the payload parsed as JSON. -/
structure DeviceRecord where
  ip : String
  name : Json
  responding : Bool
  info : Option Json

/-- The alias-extraction chain of line 55:
`device_info.get('system', {}).get('get_sysinfo', {}).get('alias', f'Device {ip}')`.
`none` models the chain raising `AttributeError` on a non-dict
intermediate value, which the bare `except` turns into the info-less
record. -/
def extractAlias (ip : String) (j : Json) : Option Json :=
  match j with
  | Json.obj fields =>
    match dictGet fields "system" with
    | none => some (Json.str ("Device " ++ ip))
    | some sv =>
      match sv with
      | Json.obj sysFields =>
        match dictGet sysFields "get_sysinfo" with
        | none => some (Json.str ("Device " ++ ip))
        | some gv =>
          match gv with
          | Json.obj gsFields =>
              some ((dictGet gsFields "alias").getD (Json.str ("Device " ++ ip)))
          | _ => none
      | _ => none
  | _ => none

/-- `check_device` (network_scan.py lines 31-74), with the socket
interaction abstracted to its outcome and `json.loads` abstracted to a
`parse` function (`none` = raised). -/
def check_device (parse : List Nat → Option Json) (ip : String)
    (outcome : ProbeOutcome) : Option DeviceRecord :=
  match outcome with
  | ProbeOutcome.connectFail _ => none
  | ProbeOutcome.ioError => none
  | ProbeOutcome.received data =>
    if data.length > 4 then
      match parse (decrypt (data.drop 4)) with
      | some deviceInfo =>
        match extractAlias ip deviceInfo with
        | some nm => some { ip := ip, name := nm, responding := true, info := some deviceInfo }
        | none =>
            some { ip := ip, name := Json.str ("Device " ++ ip), responding := true, info := none }
      | none =>
          some { ip := ip, name := Json.str ("Device " ++ ip), responding := true, info := none }
    else none

/-- The host suffixes probed by `scan_subnet` (line 107):
`range(start, end + 1)`. -/
def hostRange (start end_ : Int) : List Int :=
  (List.range (end_ + 1 - start).toNat).map fun i => start + (i : Int)

/-- `scan_subnet` (network_scan.py lines 100-116): every host in the
range is submitted to the per-host probe, and probes returning `None`
are dropped.  The probe closes over port and timeout; the worker pool
bounds scheduling only, not which probes are issued. -/
def scan_subnet (probe : String → Option DeviceRecord) (subnet : String)
    (start end_ : Int) : List DeviceRecord :=
  ((hostRange start end_).map fun i => subnet ++ "." ++ toString i).filterMap probe

end NetworkScan

namespace KasaController

/-- One outcome of `sock.recvfrom` in the collection loop of
`discover_devices` (kasa_controller.py lines 219-231). -/
inductive RecvEvent where
  | timeout
  | datagram (addr : String) (len : Nat)
  | sockError
deriving DecidableEq

/-- `discovered.add(addr)`: set insertion, modelled as append-if-absent
so the collected set is a duplicate-free list. -/
def addAddr (acc : List String) (a : String) : List String :=
  if a ∈ acc then acc else acc ++ [a]

/-- The response-collection loop of `discover_devices` (lines 218-231):
`socket.timeout` continues, a datagram longer than 50 bytes has its
source address recorded, and any other exception breaks the loop.  The
event list is the sequence of `recvfrom` outcomes occurring before the
overall deadline. -/
def collectLoop : List RecvEvent → List String → List String
  | [], acc => acc
  | RecvEvent.timeout :: rest, acc => collectLoop rest acc
  | RecvEvent.datagram a n :: rest, acc =>
      collectLoop rest (if n > 50 then addAddr acc a else acc)
  | RecvEvent.sockError :: _, acc => acc

/-- The source addresses of the datagrams the loop records (length
above the 50-byte echo filter). -/
def validAddrs (events : List RecvEvent) : List String :=
  events.filterMap fun e =>
    match e with
    | RecvEvent.datagram a n => if n > 50 then some a else none
    | _ => none

/-- Set-style deduplication keeping first occurrences. -/
def dedup (l : List String) : List String := l.foldl addAddr []

/-- Outcome of the setup phase of `discover_devices` (socket creation,
socket options, bind, send loop): either it completes and the
collection loop observes `events`, or an exception escapes to the
outer handler (line 234). -/
inductive SetupOutcome where
  | ok (events : List RecvEvent)
  | fail (msg : String)

/-- `discover_devices` (kasa_controller.py lines 161-237): a setup
failure returns `{"error": f"Discovery failed: {e}"}` (modelled as
`Except.error`); otherwise the deduplicated collected addresses. -/
def discover_devices : SetupOutcome → Except String (List String)
  | SetupOutcome.fail msg => Except.error ("Discovery failed: " ++ msg)
  | SetupOutcome.ok events => Except.ok (collectLoop events [])

end KasaController

/-! ## Theorems -/

namespace NetworkScan

lemma decryptFrom_encryptBody (key : Nat) (bs : List Nat) :
    decryptFrom key (encryptBody key bs) = bs := by
  induction bs generalizing key with
  | nil => rfl
  | cons b bs ih =>
    simp only [encryptBody, decryptFrom, ih]
    congr 1
    rw [← Nat.xor_assoc, Nat.xor_self, Nat.zero_xor]

lemma encrypt_drop_four (s : List Nat) :
    (encrypt s).drop 4 = encryptBody 171 s := by
  simp [encrypt, lenHeader]

end NetworkScan

/-- C1: for every byte sequence `x` (each byte < 256, including the
empty sequence), decoding the encoding of `x` yields `x` back: both
directions seed the key with 171, encoding advances the key to each
emitted byte, decoding advances it to each consumed ciphertext byte,
and the 4-byte length header is stripped before the decode keystream
is applied. -/
theorem C1_decode_encode_roundtrip (x : List Nat) (hx : ∀ b ∈ x, b < 256) :
    NetworkScan.decrypt ((NetworkScan.encrypt x).drop 4) = x := by
  rw [NetworkScan.encrypt_drop_four, NetworkScan.decrypt,
    NetworkScan.decryptFrom_encryptBody]

theorem C1_decode_encode_roundtrip_witness :
    (∀ b ∈ [0, 171, 255, 10], b < 256) ∧
      NetworkScan.decrypt ((NetworkScan.encrypt [0, 171, 255, 10]).drop 4)
        = [0, 171, 255, 10] :=
  ⟨by decide, C1_decode_encode_roundtrip [0, 171, 255, 10] (by decide)⟩

/-- C2: `encrypt` prepends a 4-byte big-endian header whose value is
the plaintext length (for any length `pack(">I", ·)` accepts, i.e.
below `2^32`), followed by the keystream body; the empty input encodes
to exactly the four zero header bytes and no body. -/
theorem C2_length_header :
    (∀ x : List Nat, x.length < 2 ^ 32 →
        (NetworkScan.encrypt x).take 4 = NetworkScan.lenHeader x.length ∧
        NetworkScan.headerValue ((NetworkScan.encrypt x).take 4) = x.length ∧
        (NetworkScan.encrypt x).drop 4 = NetworkScan.encryptBody 171 x) ∧
      NetworkScan.encrypt [] = [0, 0, 0, 0] := by
  refine ⟨fun x hlen => ⟨?_, ?_, NetworkScan.encrypt_drop_four x⟩, by decide⟩
  · simp [NetworkScan.encrypt, NetworkScan.lenHeader]
  · simp only [NetworkScan.encrypt, NetworkScan.lenHeader, List.cons_append,
      List.take, NetworkScan.headerValue]
    omega

theorem C2_length_header_witness :
    ([5, 6, 7] : List Nat).length < 2 ^ 32 ∧
      (NetworkScan.encrypt [5, 6, 7]).take 4
          = NetworkScan.lenHeader ([5, 6, 7] : List Nat).length ∧
      NetworkScan.headerValue ((NetworkScan.encrypt [5, 6, 7]).take 4)
          = ([5, 6, 7] : List Nat).length ∧
      (NetworkScan.encrypt [5, 6, 7]).drop 4
          = NetworkScan.encryptBody 171 [5, 6, 7] :=
  ⟨by decide, C2_length_header.1 [5, 6, 7] (by decide)⟩

lemma dictGet_foldl_acc (k : String) (fields : List (String × Json)) (acc : Option Json) :
    fields.foldl (fun a p => if p.1 = k then some p.2 else a) acc
      = (dictGet fields k).elim acc some := by
  induction fields generalizing acc with
  | nil => simp [dictGet]
  | cons p rest ih =>
    have hd : dictGet (p :: rest) k
        = (dictGet rest k).elim (if p.1 = k then some p.2 else none) some := by
      simpa [dictGet] using ih (if p.1 = k then some p.2 else none)
    simp only [List.foldl_cons, ih, hd]
    cases dictGet rest k <;> by_cases hpk : p.1 = k <;> simp [hpk]

lemma dictGet_cons (q : String × Json) (fields : List (String × Json)) (k : String) :
    dictGet (q :: fields) k
      = (dictGet fields k).elim (if q.1 = k then some q.2 else none) some := by
  simpa [dictGet] using dictGet_foldl_acc k fields (if q.1 = k then some q.2 else none)

namespace KasaController

/-- C3: when the system-info response has children and the handle's
`child_id` is set, `get_state` locates the child whose `id` equals the
handle's `child_id` (the first match, in response order) and reports
its state as `"on"` when 1 and `"off"` otherwise, together with the
outlet id and alias. -/
theorem C3_get_state_selected_child
    (d : KasaDevice) (env : SysEnvelope) (sysinfo : SysInfo)
    (children : List ChildInfo) (cid : String) (child : ChildInfo)
    (hcid : d.child_id = some cid) (hne : cid ≠ "")
    (henv : env.get_sysinfo = some sysinfo)
    (hch : sysinfo.children = some children)
    (hfind : children.find? (fun c => c.id == some cid) = some child) :
    d.get_state ⟨none, some env⟩
      = StateResult.childState (if child.state.getD 0 = (1 : Int) then "on" else "off")
          (child.state.getD 0) cid (child.alias_.getD "") := by
  simp [KasaDevice.get_state, henv, hch, hcid, truthy, hne, hfind]

/-- C3 witness: the two-outlet example of the spec, selecting child
`"B"`, yields `{state: "off", relay_state: 0, outlet_id: "B",
outlet_alias: "Fan"}`. -/
theorem C3_get_state_selected_child_witness :
    (KasaDevice.mk "192.168.0.10" 9999 (some "B")).get_state
        ⟨none, some ⟨some ⟨some [⟨some "A", some 1, some "Lamp"⟩,
            ⟨some "B", some 0, some "Fan"⟩], none, none, none, none⟩⟩⟩
      = StateResult.childState "off" 0 "B" "Fan" := by
  have h := C3_get_state_selected_child
    (KasaDevice.mk "192.168.0.10" 9999 (some "B"))
    ⟨some ⟨some [⟨some "A", some 1, some "Lamp"⟩, ⟨some "B", some 0, some "Fan"⟩],
      none, none, none, none⟩⟩
    ⟨some [⟨some "A", some 1, some "Lamp"⟩, ⟨some "B", some 0, some "Fan"⟩],
      none, none, none, none⟩
    [⟨some "A", some 1, some "Lamp"⟩, ⟨some "B", some 0, some "Fan"⟩]
    "B" ⟨some "B", some 0, some "Fan"⟩
    rfl (by decide) rfl rfl (by rfl)
  simpa using h

/-- C4: when the response has children and the handle's `child_id`
matches none of their ids, `get_state` returns the error
`Child ID {cid} not found`, whose message mentions the requested id;
no other outlet is substituted. -/
theorem C4_get_state_child_not_found
    (d : KasaDevice) (env : SysEnvelope) (sysinfo : SysInfo)
    (children : List ChildInfo) (cid : String)
    (hcid : d.child_id = some cid) (hne : cid ≠ "")
    (henv : env.get_sysinfo = some sysinfo)
    (hch : sysinfo.children = some children)
    (hnomatch : ∀ c ∈ children, c.id ≠ some cid) :
    d.get_state ⟨none, some env⟩
        = StateResult.err ("Child ID " ++ cid ++ " not found") ∧
      ∃ pre post, "Child ID " ++ cid ++ " not found" = pre ++ cid ++ post := by
  refine ⟨?_, "Child ID ", " not found", rfl⟩
  have hfind : children.find? (fun c => c.id == some cid) = none := by
    rw [List.find?_eq_none]
    intro c hc
    simpa using hnomatch c hc
  simp [KasaDevice.get_state, henv, hch, hcid, truthy, hne, hfind]

/-- C4 witness: requesting child `"Z"` on the two-outlet example yields
the not-found error mentioning `"Z"`. -/
theorem C4_get_state_child_not_found_witness :
    (KasaDevice.mk "192.168.0.10" 9999 (some "Z")).get_state
        ⟨none, some ⟨some ⟨some [⟨some "A", some 1, some "Lamp"⟩,
            ⟨some "B", some 0, some "Fan"⟩], none, none, none, none⟩⟩⟩
        = StateResult.err "Child ID Z not found" ∧
      ∃ pre post, "Child ID Z not found" = pre ++ "Z" ++ post := by
  have h := C4_get_state_child_not_found
    (KasaDevice.mk "192.168.0.10" 9999 (some "Z"))
    ⟨some ⟨some [⟨some "A", some 1, some "Lamp"⟩, ⟨some "B", some 0, some "Fan"⟩],
      none, none, none, none⟩⟩
    ⟨some [⟨some "A", some 1, some "Lamp"⟩, ⟨some "B", some 0, some "Fan"⟩],
      none, none, none, none⟩
    [⟨some "A", some 1, some "Lamp"⟩, ⟨some "B", some 0, some "Fan"⟩]
    "Z" rfl (by decide) rfl rfl (by decide)
  simpa using h

/-- C5: `set_led` hides the wire protocol's inverted polarity: for
every handle, `set_led(true)` builds
`{"system": {"set_led_off": {"off": 0}}}` and `set_led(false)` builds
`{"system": {"set_led_off": {"off": 1}}}`. -/
theorem C5_set_led_inverted_polarity (d : KasaDevice) :
    d.set_led_command true
        = Json.obj [("system", Json.obj [("set_led_off",
            Json.obj [("off", Json.num 0)])])] ∧
      d.set_led_command false
        = Json.obj [("system", Json.obj [("set_led_off",
            Json.obj [("off", Json.num 1)])])] :=
  ⟨rfl, rfl⟩

end KasaController

namespace KasaController

/-- C7 counterexample: the claim fails for a command that itself binds
the key `"context"`.  Python's `{"context": ctx, **command}` lets the
original command's `"context"` pair override the wrapper, so the
wrapped command does not map `"context"` to `{child_ids: [child_id]}`. -/
theorem C7_wrap_command_counterexample :
    ¬ (dictGet ((KasaDevice.mk "192.168.0.10" 9999 (some "X")).wrap_command
          [("context", Json.str "orig")]) "context"
        = some (Json.obj [("child_ids", Json.arr [Json.str "X"])])) := by
  intro h
  have h2 : some (Json.str "orig")
      = some (Json.obj [("child_ids", Json.arr [Json.str "X"])]) := h
  exact Json.noConfusion (Option.some.inj h2)

/-- C7 amended: context wrapping is additive — with a set (truthy)
`child_id`, every key-value pair of the original command survives
unchanged, and, provided the original command does not itself bind the
key `"context"`, the wrapped command additionally maps `"context"` to
`{child_ids: [child_id]}`; with no (falsy) `child_id` the command is
returned unchanged. -/
theorem C7_wrap_command_additive (d : KasaDevice) (command : List (String × Json)) :
    (∀ k v, dictGet command k = some v →
        dictGet (d.wrap_command command) k = some v) ∧
    (∀ cid, d.child_id = some cid → cid ≠ "" → dictGet command "context" = none →
        dictGet (d.wrap_command command) "context"
          = some (Json.obj [("child_ids", Json.arr [Json.str cid])])) ∧
    (d.child_id = none ∨ d.child_id = some "" → d.wrap_command command = command) := by
  refine ⟨fun k v hv => ?_, fun cid hcid hne hnone => ?_, fun hfalsy => ?_⟩
  · cases hc : d.child_id with
    | none => simpa [KasaDevice.wrap_command, hc] using hv
    | some cid =>
      by_cases hne : cid = ""
      · simpa [KasaDevice.wrap_command, hc, hne] using hv
      · simp only [KasaDevice.wrap_command, hc, bne_iff_ne, ne_eq, hne,
          not_false_eq_true, if_true, dictGet_cons, hv, Option.elim]
  · simp only [KasaDevice.wrap_command, hcid, bne_iff_ne, ne_eq, hne,
      not_false_eq_true, if_true, dictGet_cons, hnone, Option.elim, if_pos rfl]
  · rcases hfalsy with h | h <;> simp [KasaDevice.wrap_command, h]

/-- C7 witness: wrapping `{"system": null}` for child `"c1"` keeps the
original pair, adds the context pair, and an unset `child_id` leaves
the command unchanged. -/
theorem C7_wrap_command_additive_witness :
    dictGet ((KasaDevice.mk "192.168.0.10" 9999 (some "c1")).wrap_command
        [("system", Json.null)]) "system" = some Json.null ∧
      dictGet ((KasaDevice.mk "192.168.0.10" 9999 (some "c1")).wrap_command
          [("system", Json.null)]) "context"
        = some (Json.obj [("child_ids", Json.arr [Json.str "c1"])]) ∧
      (KasaDevice.mk "192.168.0.10" 9999 none).wrap_command [("system", Json.null)]
        = [("system", Json.null)] :=
  ⟨(C7_wrap_command_additive (KasaDevice.mk "192.168.0.10" 9999 (some "c1"))
      [("system", Json.null)]).1 "system" Json.null rfl,
   (C7_wrap_command_additive (KasaDevice.mk "192.168.0.10" 9999 (some "c1"))
      [("system", Json.null)]).2.1 "c1" rfl (by decide) rfl,
   (C7_wrap_command_additive (KasaDevice.mk "192.168.0.10" 9999 none)
      [("system", Json.null)]).2.2 (Or.inl rfl)⟩

/-- C9 counterexample: a response whose single child lacks the `id`
field makes `get_children` return a normal strip result with a null
id — no ParseError naming the missing field is produced. -/
theorem C9_missing_field_counterexample :
    (KasaDevice.mk "192.168.0.11" 9999 none).get_children
        ⟨none, some ⟨some ⟨some [⟨none, some 1, some "Lamp"⟩],
            none, none, none, none⟩⟩⟩
        = ChildrenResult.strip "" "" 1 [⟨none, 0, "Lamp", "on", 1⟩] ∧
      ChildrenResult.isErr ((KasaDevice.mk "192.168.0.11" 9999 none).get_children
        ⟨none, some ⟨some ⟨some [⟨none, some 1, some "Lamp"⟩],
            none, none, none, none⟩⟩⟩) = false :=
  ⟨rfl, rfl⟩

/-- C9 amended: when the `system`/`get_sysinfo` envelope is missing, or
a single-outlet response lacks `relay_state`, the operations return a
fixed per-operation parse error — `Could not parse relay state from
response` for `get_state` and `Could not parse children from response`
for `get_children` — naming the operation's target rather than the
specific missing field; a missing `children[].id` is never surfaced:
child ids are passed through unchanged (null when absent). -/
theorem C9_fixed_parse_errors :
    (∀ (d : KasaDevice) (info : InfoResponse), info.error = none → info.system = none →
        d.get_state info = StateResult.err "Could not parse relay state from response" ∧
        d.get_children info = ChildrenResult.err "Could not parse children from response") ∧
    (∀ (d : KasaDevice) (env : SysEnvelope) (sysinfo : SysInfo),
        env.get_sysinfo = some sysinfo → sysinfo.children = none →
        sysinfo.relay_state = none →
        d.get_state ⟨none, some env⟩
          = StateResult.err "Could not parse relay state from response") ∧
    (∀ children : List ChildInfo,
        (childEntries children).map ChildEntry.id = children.map ChildInfo.id) := by
  refine ⟨fun d info h1 h2 => ?_, fun d env sysinfo henv hch hrs => ?_, fun children => ?_⟩
  · cases info
    cases h1
    cases h2
    exact ⟨rfl, rfl⟩
  · simp [KasaDevice.get_state, henv, hch, hrs]
  · simp only [childEntries, List.map_map]
    show children.enum.map (ChildInfo.id ∘ Prod.snd) = children.map ChildInfo.id
    rw [← List.map_map, List.enum_map_snd]

/-- C9 witness: concrete instances of the three amended clauses. -/
theorem C9_fixed_parse_errors_witness :
    ((KasaDevice.mk "10.0.0.9" 9999 none).get_state ⟨none, none⟩
        = StateResult.err "Could not parse relay state from response" ∧
      (KasaDevice.mk "10.0.0.9" 9999 none).get_children ⟨none, none⟩
        = ChildrenResult.err "Could not parse children from response") ∧
    ((KasaDevice.mk "10.0.0.9" 9999 none).get_state
        ⟨none, some ⟨some ⟨none, none, none, none, none⟩⟩⟩
      = StateResult.err "Could not parse relay state from response") ∧
    (childEntries [⟨none, some 1, none⟩]).map ChildEntry.id = [none] := by
  refine ⟨C9_fixed_parse_errors.1 (KasaDevice.mk "10.0.0.9" 9999 none) ⟨none, none⟩ rfl rfl,
    C9_fixed_parse_errors.2.1 (KasaDevice.mk "10.0.0.9" 9999 none)
      ⟨some ⟨none, none, none, none, none⟩⟩ ⟨none, none, none, none, none⟩ rfl rfl rfl,
    ?_⟩
  simpa using C9_fixed_parse_errors.2.2 [⟨none, some 1, none⟩]

end KasaController

/-- C6: a subnet scan over an empty host range (`start > end`) issues
no per-host probe (the submitted host list is empty) and returns the
empty list, for every subnet string and per-host probe (the probe
closes over port and timeout; the worker cap affects scheduling only). -/
theorem C6_empty_range_scan (probe : String → Option NetworkScan.DeviceRecord)
    (subnet : String) (start end_ : Int) (h : start > end_) :
    NetworkScan.hostRange start end_ = [] ∧
      NetworkScan.scan_subnet probe subnet start end_ = [] := by
  have hr : NetworkScan.hostRange start end_ = [] := by
    simp [NetworkScan.hostRange, List.range_eq_nil]
    omega
  exact ⟨hr, by simp [NetworkScan.scan_subnet, hr]⟩

theorem C6_empty_range_scan_witness :
    NetworkScan.hostRange 10 3 = [] ∧
      NetworkScan.scan_subnet (fun ip => some ⟨ip, Json.null, true, none⟩)
        "192.168.1" 10 3 = [] :=
  C6_empty_range_scan (fun ip => some ⟨ip, Json.null, true, none⟩)
    "192.168.1" 10 3 (by decide)

namespace KasaController

lemma addAddr_nodup (acc : List String) (a : String) (h : acc.Nodup) :
    (addAddr acc a).Nodup := by
  by_cases hmem : a ∈ acc
  · simpa [addAddr, hmem] using h
  · simp [addAddr, hmem, List.nodup_append, h]

lemma foldl_addAddr_nodup (l : List String) :
    ∀ acc : List String, acc.Nodup → (l.foldl addAddr acc).Nodup := by
  induction l with
  | nil => exact fun acc h => h
  | cons a l ih => exact fun acc h => ih (addAddr acc a) (addAddr_nodup acc a h)

lemma collectLoop_append_sockError (pre post : List RecvEvent) (acc : List String)
    (h : RecvEvent.sockError ∉ pre) :
    collectLoop (pre ++ RecvEvent.sockError :: post) acc = collectLoop pre acc := by
  induction pre generalizing acc with
  | nil => rfl
  | cons e pre ih =>
    have he : e ≠ RecvEvent.sockError := fun heq => h (heq ▸ List.mem_cons_self e pre)
    have hpre : RecvEvent.sockError ∉ pre := fun hm => h (List.mem_cons_of_mem e hm)
    cases e with
    | timeout => simpa [collectLoop] using ih _ hpre
    | datagram a n => simpa [collectLoop] using ih _ hpre
    | sockError => exact absurd rfl he

lemma collectLoop_eq_foldl (events : List RecvEvent)
    (h : RecvEvent.sockError ∉ events) :
    ∀ acc : List String, collectLoop events acc = (validAddrs events).foldl addAddr acc := by
  induction events with
  | nil => intro acc; rfl
  | cons e rest ih =>
    have hrest : RecvEvent.sockError ∉ rest := fun hm => h (List.mem_cons_of_mem e hm)
    intro acc
    cases e with
    | timeout => simpa [collectLoop, validAddrs] using ih hrest acc
    | datagram a n =>
      by_cases hn : n > 50
      · simpa [collectLoop, validAddrs, hn] using ih hrest (addAddr acc a)
      · simpa [collectLoop, validAddrs, hn] using ih hrest acc
    | sockError => exact absurd (List.mem_cons_self _ _) h

/-- C8 counterexample to the claim as stated: an unexpected socket
error in the setup phase of a discovery run (socket creation, socket
options, bind) reaches the outer handler and makes `discover_devices`
return an error value, not the (empty) list collected so far. -/
theorem C8_setup_error_counterexample :
    discover_devices (SetupOutcome.fail "bind failed") ≠ Except.ok [] := by
  intro h
  exact Except.noConfusion h

/-- C8 amended: if an unexpected socket error occurs during the
response-collection (listening) loop of a broadcast discovery run,
discovery terminates early — every event after the error is ignored —
and returns, as a normal non-error result, the deduplicated (hence
duplicate-free) list of source addresses of the valid datagrams
collected before the error, possibly empty. -/
theorem C8_listen_error_returns_collected (pre post : List RecvEvent)
    (h : RecvEvent.sockError ∉ pre) :
    discover_devices (SetupOutcome.ok (pre ++ RecvEvent.sockError :: post))
        = Except.ok (dedup (validAddrs pre)) ∧
      (dedup (validAddrs pre)).Nodup := by
  constructor
  · simp only [discover_devices, collectLoop_append_sockError pre post [] h,
      collectLoop_eq_foldl pre h, dedup]
  · exact foldl_addAddr_nodup (validAddrs pre) [] List.nodup_nil

theorem C8_listen_error_returns_collected_witness :
    discover_devices (SetupOutcome.ok
        [RecvEvent.datagram "192.168.1.5" 120, RecvEvent.timeout,
         RecvEvent.datagram "192.168.1.5" 120, RecvEvent.datagram "10.0.0.7" 33,
         RecvEvent.sockError, RecvEvent.datagram "1.2.3.4" 999])
        = Except.ok ["192.168.1.5"] ∧
      (["192.168.1.5"] : List String).Nodup := by
  have h := C8_listen_error_returns_collected
    [RecvEvent.datagram "192.168.1.5" 120, RecvEvent.timeout,
     RecvEvent.datagram "192.168.1.5" 120, RecvEvent.datagram "10.0.0.7" 33]
    [RecvEvent.datagram "1.2.3.4" 999] (by decide)
  exact h

end KasaController

/-- C10: every record the `check_device` probe returns has
`responding = true` — non-responding hosts yield no record at all —
and when the TCP connect and read succeed (payload longer than the
4-byte header) but the decoded payload fails JSON parsing, the probe
still returns `{ip, name: "Device <ip>", responding: true}` carrying
no `info` field. -/
theorem C10_check_device_responding (parse : List Nat → Option Json) (ip : String) :
    (∀ (outcome : NetworkScan.ProbeOutcome) (r : NetworkScan.DeviceRecord),
        NetworkScan.check_device parse ip outcome = some r → r.responding = true) ∧
    (∀ data : List Nat, data.length > 4 →
        parse (NetworkScan.decrypt (data.drop 4)) = none →
        NetworkScan.check_device parse ip (NetworkScan.ProbeOutcome.received data)
          = some ⟨ip, Json.str ("Device " ++ ip), true, none⟩) := by
  constructor
  · intro outcome r h
    cases outcome with
    | connectFail code => simp [NetworkScan.check_device] at h
    | ioError => simp [NetworkScan.check_device] at h
    | received data =>
      simp only [NetworkScan.check_device] at h
      by_cases hlen : data.length > 4
      · rw [if_pos hlen] at h
        cases hp : parse (NetworkScan.decrypt (data.drop 4)) with
        | none =>
          simp only [hp] at h
          injection h with h2
          rw [← h2]
        | some j =>
          simp only [hp] at h
          cases ha : NetworkScan.extractAlias ip j with
          | none =>
            simp only [ha] at h
            injection h with h2
            rw [← h2]
          | some nm =>
            simp only [ha] at h
            injection h with h2
            rw [← h2]
      · rw [if_neg hlen] at h
        exact Option.noConfusion h
  · intro data hlen hp
    simp [NetworkScan.check_device, hlen, hp]

theorem C10_check_device_responding_witness :
    NetworkScan.check_device (fun _ => none) "10.0.0.2"
        (NetworkScan.ProbeOutcome.received [0, 0, 0, 2, 1, 2])
        = some ⟨"10.0.0.2", Json.str "Device 10.0.0.2", true, none⟩ ∧
      (⟨"10.0.0.2", Json.str "Device 10.0.0.2", true, none⟩ :
          NetworkScan.DeviceRecord).responding = true := by
  have h := (C10_check_device_responding (fun _ => none) "10.0.0.2").2
    [0, 0, 0, 2, 1, 2] (by decide) rfl
  exact ⟨h, (C10_check_device_responding (fun _ => none) "10.0.0.2").1
    (NetworkScan.ProbeOutcome.received [0, 0, 0, 2, 1, 2]) _ h⟩
